import Mathlib

/-!
Verification of the IMAP backend core of meli: a shallow embedding of the
connection layer (`melib/src/backends/imap/connection.rs`) and the IDLE/poll
watcher (`melib/src/backends/imap/watch.rs`), together with theorems settling
the specification claims about mailbox selection, reconnection, COMPRESS
negotiation, LOGIN framing, the IDLE loop timers and resynchronization
deduplication.

Conventions of the embedding:
* `Result<T>` becomes `Except MError T`; an error carries its message and the
  `err.kind.is_network()` classification the reconnection logic branches on.
* I/O outcomes (socket writes, reads, parses, the result of a recursive
  `connect()` performed inside the send wrappers) are oracle fields of
  per-operation environment structures; each operation returns
  `result × post-state × effect trace`, the trace recording the commands
  written to the wire and the side channels (notices, warnings, new
  connections) the claims quantify over.
* Shared maps of the UID store (`mailboxes`, `msn_index`, `uid_index`,
  `hash_index`) are association lists; the mutex wrappers of the source are
  dropped since every modelled operation holds them for the same scoped edits
  the source does.
-/

deriving instance DecidableEq for Except

namespace Meli

/-- Error value of the embedding: the message together with the
`err.kind.is_network()` classification that `send_command`/`send_literal`/
`send_raw` branch on (connection.rs lines 806, 820, 832). -/
structure MError where
  msg : String
  network : Bool
deriving DecidableEq, Repr

/-- `MailboxSelection` of connection.rs lines 96-101. -/
inductive MailboxSelection
  | none
  | select (h : Nat)
  | examine (h : Nat)
deriving DecidableEq, Repr

/-- `ImapStream` of connection.rs lines 87-94: the tag counter, the current
mailbox slot and the configured timeout.  The `stream: AsyncWrapper<Connection>`
transport is represented only by `deflateActive`, which records whether the
transport has been wrapped in the deflate layer (connection.rs line 677);
`protocol` is omitted because every modelled path is the `ImapProtocol::IMAP`
one. -/
structure ImapStream where
  cmd_id : Nat
  current_mailbox : MailboxSelection
  timeout : Option Nat
  deflateActive : Bool
deriving DecidableEq, Repr

/-- The tagged commands the modelled operations write, abstracting the byte
strings formatted in the source. -/
inductive ImapCmd
  | capability
  | noop
  | idleCmd
  | enableCondstore
  | statusInbox
  | compressDeflate
  | unselectCmd
  | selectCmd (path : String)
  | examineCmd (path : String)
  | uidSearch (low : Nat)
deriving DecidableEq, Repr

/-- Observable effects of an operation, in order of occurrence: commands and
raw lines written to the wire, response reads, `BackendEvent::Notice`
emissions (connection.rs lines 731, 748), `log::warn!` calls (line 659),
`ImapStream::new_connection` attempts (line 607) and the recursive `connect()`
attempts made from the send wrappers (lines 807, 821, 833). -/
inductive Effect
  | cmd (c : ImapCmd)
  | rawOut (s : String)
  | literalOut (bytes : List Nat)
  | readResp
  | notice
  | warn
  | newConn
  | reconnectAttempt
deriving DecidableEq, Repr

/-- Classification of a tagged server response (`ImapResponse` of
protocol_parser, used by connection.rs lines 654-666 and 706-760); the
response-code payloads are irrelevant to the claims and omitted. -/
inductive ImapResponse
  | ok
  | no
  | bad
  | preauth
  | bye
deriving DecidableEq, Repr

/-- The error produced when converting a NO response to a `Result`. -/
def imapNoErr : MError := { msg := "IMAP NO response", network := false }

/-- The error produced when converting a BAD response to a `Result`. -/
def imapBadErr : MError := { msg := "IMAP BAD response", network := false }

/-- Modelled from the spec: the `Into<Result<()>>` conversion of
`ImapResponse` lives in protocol_parser, which is not among the sources.
Section 7 of the specification fixes it: "NO/BAD responses are non-fatal for
the connection; they are returned to the caller and ... forwarded to the UI as
a Notice at ERROR level" and "BYE from server marks the stream offline; the
next operation reconnects" — so NO and BAD convert to errors while OK, PREAUTH
and BYE convert to success (BYE's teardown is done by `read_response` itself,
connection.rs lines 708-715). -/
def ImapResponse.toResult : ImapResponse → Except MError Unit
  | .no => .error imapNoErr
  | .bad => .error imapBadErr
  | _ => .ok ()

/-- Error installed in the stream slot by the BYE branch of
`ImapConnection::read_response` (connection.rs lines 709-712). -/
def offlineByeErr : MError := { msg := "Offline: received BYE", network := false }

/-- Error of the 28-minute protocol-idle teardown in `connect`
(connection.rs lines 580-584); its kind is `Timeout`, not `Network`. -/
def protocolTimeoutErr : MError := { msg := "Connection timed out", network := false }

/-- Bug-class error for selecting a `\NoSelect` mailbox (connection.rs
lines 859-864 and 945-950). -/
def noSelectErr (path : String) : MError :=
  { msg := "Trying to select a NoSelect mailbox " ++ path, network := false }

/-- The source indexes `uid_store.mailboxes` with `[&mailbox_hash]`
(connection.rs line 852), which panics when the hash is absent; the total
model returns this error instead.  No claim exercises the branch. -/
def mailboxMissingErr : MError := { msg := "mailbox hash absent from uid_store.mailboxes", network := false }

/-- `Permissions` of a mailbox; `select_mailbox` rewrites the five fields from
the SELECT response's read-only bit (connection.rs lines 906-913). -/
structure Permissions where
  create_messages : Bool
  remove_messages : Bool
  set_flags : Bool
  rename_messages : Bool
  delete_messages : Bool
deriving DecidableEq, Repr

/-- `SelectResponse` of protocol_parser as used by the claims; the source
field `exists` is spelled `exists_count` because `exists` is reserved. -/
structure SelectResponse where
  exists_count : Nat
  recent : Nat
  uidvalidity : Nat
  uidnext : Nat
  read_only : Bool
deriving DecidableEq, Repr

/-- The per-mailbox data `select_mailbox`/`examine_mailbox` consult: the imap
path, the `\NoSelect` flag, the permissions cell and the stored last SELECT
response. -/
structure MailboxInfo where
  imap_path : String
  no_select : Bool
  permissions : Permissions
  select : Option SelectResponse
deriving DecidableEq, Repr

/-- The slice of `UIDStore` the connection-layer claims touch: the
`is_online` cell (timestamp in seconds paired with the status, imap.rs),
capabilities, the mailboxes map and the MSN index. -/
structure UIDStore where
  is_online : Nat × Except MError Unit
  capabilities : List String
  mailboxes : List (Nat × MailboxInfo)
  msn_index : List (Nat × List Nat)
  keep_offline_cache : Bool
deriving DecidableEq, Repr

/-- The `ImapExtensionUse` switches of the server configuration consulted by
`connect` (connection.rs lines 616-624). -/
structure ServerConf where
  condstore : Bool
  deflateEnabled : Bool
deriving DecidableEq, Repr

/-- `SyncPolicy` of connection.rs lines 49-58; the source constructor `None`
is spelled `noSync`. -/
inductive SyncPolicy
  | noSync
  | basic
  | condstore
  | condstoreQresync
deriving DecidableEq, Repr

/-- `ImapConnection` of connection.rs lines 113-119: the fallible stream slot,
the UID store and the configuration/sync policy. -/
structure ConnState where
  stream : Except MError ImapStream
  store : UIDStore
  server : ServerConf
  sync_policy : SyncPolicy
deriving DecidableEq, Repr

/-- Association-list lookup standing for the shared hash-map reads of the
source. -/
def assocFind {β : Type} (l : List (Nat × β)) (k : Nat) : Option β :=
  match l with
  | [] => Option.none
  | p :: r => if p.1 = k then some p.2 else assocFind r k

/-- `entry(k).and_modify(f)`: rewrite the value at `k` when present. -/
def assocModify {β : Type} (l : List (Nat × β)) (k : Nat) (f : β → β) : List (Nat × β) :=
  l.map (fun p => if p.1 = k then (p.1, f p.2) else p)

/-- `entry(k).or_default()` followed by replacing the entry's value. -/
def msnSet (l : List (Nat × List Nat)) (k : Nat) (v : List Nat) : List (Nat × List Nat) :=
  if l.any (fun p => decide (p.1 = k)) then assocModify l k (fun _ => v) else l ++ [(k, v)]

/-- Number of SELECT commands in a trace. -/
def countSelect (tr : List Effect) : Nat :=
  (tr.filter (fun e => match e with | .cmd (.selectCmd _) => true | _ => false)).length

/-- Number of reconnection attempts in a trace. -/
def countReconnect (tr : List Effect) : Nat :=
  (tr.filter (fun e => match e with | .reconnectAttempt => true | _ => false)).length

/-- Oracle environment of one send operation: the outcome of the raw socket
write, and the outcome of the recursive `connect()` the wrapper performs on a
network-class failure (connection.rs lines 806-808).  That recursive call is
abstracted to its result because at that point the stream slot holds an error,
so `connect` necessarily takes its rebuild path, whose successful outcome is a
fresh `ImapStream::new_connection` stream — always created with
`current_mailbox: MailboxSelection::None` (connection.rs line 271) and
carrying the freshly negotiated capabilities (line 688); on success the model
therefore installs the oracle stream with its selection cleared, stores
`reconnectCaps` and stamps `is_online` (line 611). -/
structure SendEnv where
  writeErr : Option MError
  reconnect : Except MError ImapStream
  reconnectCaps : List String
  now : Nat
deriving DecidableEq, Repr

/-- Common failure continuation of `send_command`/`send_literal`/`send_raw`
(connection.rs lines 802-809, 817-823, 830-835): store the error in the stream
slot, attempt one `connect()` cycle when the error is network-class — note the
`self.connect().await?`, which exits with the reconnection error when that
cycle fails — and otherwise return the original error. -/
def sendFailureCont (st : ConnState) (env : SendEnv) (e : MError) :
    Except MError Unit × ConnState × List Effect :=
  let st1 : ConnState := { st with stream := .error e }
  if e.network then
    match env.reconnect with
    | .ok rs =>
      (.error e,
       { st1 with
          stream := .ok { rs with current_mailbox := .none },
          store := { st1.store with
                      is_online := (env.now, .ok ()),
                      capabilities := env.reconnectCaps } },
       [.reconnectAttempt])
    | .error e2 => (.error e2, st1, [.reconnectAttempt])
  else (.error e, st1, [])

/-- `ImapConnection::send_command` (connection.rs lines 801-814).  The inner
`ImapStream::send_command` writes the `M<n> ` tag, bumps `cmd_id`, writes the
command and flushes; a failing write is modelled as failing before the tag
counter moves (no claim depends on the counter after a failed send).  On
success `is_online` is stamped OK (line 811). -/
def conn_send_command (st : ConnState) (env : SendEnv) (c : ImapCmd) :
    Except MError Unit × ConnState × List Effect :=
  match st.stream with
  | .error e => sendFailureCont st env e
  | .ok s =>
    match env.writeErr with
    | some e => sendFailureCont st env e
    | Option.none =>
      (.ok (),
       { st with
          stream := .ok { s with cmd_id := s.cmd_id + 1 },
          store := { st.store with is_online := (env.now, .ok ()) } },
       [.cmd c])

/-- `ImapConnection::send_literal` (connection.rs lines 816-827): the stream
write sends the bytes and a CRLF; unlike `send_command` a success does not
stamp `is_online` and does not move the tag counter. -/
def conn_send_literal (st : ConnState) (env : SendEnv) (data : List Nat) :
    Except MError Unit × ConnState × List Effect :=
  match st.stream with
  | .error e => sendFailureCont st env e
  | .ok _ =>
    match env.writeErr with
    | some e => sendFailureCont st env e
    | Option.none => (.ok (), st, [.literalOut data])

/-- `ImapConnection::send_raw` (connection.rs lines 829-839). -/
def conn_send_raw (st : ConnState) (env : SendEnv) (raw : String) :
    Except MError Unit × ConnState × List Effect :=
  match st.stream with
  | .error e => sendFailureCont st env e
  | .ok _ =>
    match env.writeErr with
    | some e => sendFailureCont st env e
    | Option.none => (.ok (), st, [.rawOut raw])

/-- The only bit of the `RequiredResponses` bitmap the claims depend on:
whether NO is an expected (non-error) response (`NO_REQUIRED`,
connection.rs lines 716-724). -/
structure RequiredResponses where
  no_required : Bool
deriving DecidableEq, Repr

/-- Oracle environment of one `read_response`: the outcome of the underlying
socket read (`readErr`, covering timeouts and disconnects) and the
classification of the tagged response that arrived. -/
structure ReadEnv where
  readErr : Option MError
  resp : ImapResponse
  now : Nat
deriving DecidableEq, Repr

/-- `ImapConnection::read_response` (connection.rs lines 693-779).  A
successful socket read stamps `is_online` (line 702) before the response is
classified.  BYE replaces the stream slot with an offline error and returns
the converted response (lines 708-715); NO without `NO_REQUIRED` and BAD emit
an ERROR notice and return the converted response, which is an error (lines
725-758); expected NO, OK and PREAUTH fall through to the untagged-response
filter and succeed.  The filter's routing of untagged lines is not itself
observable to any claim and is not modelled further. -/
def conn_read_response (st : ConnState) (env : ReadEnv) (req : RequiredResponses) :
    Except MError Unit × ConnState × List Effect :=
  match st.stream with
  | .error e => (.error e, st, [])
  | .ok _ =>
    match env.readErr with
    | some e => (.error e, st, [.readResp])
    | Option.none =>
      let st1 : ConnState :=
        { st with store := { st.store with is_online := (env.now, .ok ()) } }
      match env.resp with
      | .bye => (ImapResponse.toResult .bye, { st1 with stream := .error offlineByeErr }, [.readResp])
      | .no =>
        if req.no_required then (.ok (), st1, [.readResp])
        else (ImapResponse.toResult .no, st1, [.readResp, .notice])
      | .bad => (ImapResponse.toResult .bad, st1, [.readResp, .notice])
      | _ => (.ok (), st1, [.readResp])

/-- Oracle environment of `select_mailbox`/`examine_mailbox`: outcomes for the
SELECT/EXAMINE round trip, the `select_response` parse, and the `UID SEARCH`
round trip of `create_uid_msn_cache`. -/
structure SelectEnv where
  send : SendEnv
  read : ReadEnv
  parse : Except MError SelectResponse
  searchSend : SendEnv
  searchRead : ReadEnv
  searchResult : Except MError (List Nat)
deriving DecidableEq, Repr

/-- `ImapConnection::create_uid_msn_cache` (connection.rs lines 1021-1038):
send `UID SEARCH <low>:*`, read with the SEARCH filter, then in the MSN entry
drain everything from position `low-1` and append the parsed UIDs. -/
def create_uid_msn_cache (st : ConnState) (sendE : SendEnv) (readE : ReadEnv)
    (searchResult : Except MError (List Nat)) (mh low : Nat) :
    Except MError Unit × ConnState × List Effect :=
  let r1 := conn_send_command st sendE (.uidSearch low)
  match r1.1 with
  | .error e => (.error e, r1.2.1, r1.2.2)
  | .ok _ =>
    let r2 := conn_read_response r1.2.1 readE { no_required := false }
    match r2.1 with
    | .error e => (.error e, r2.2.1, r1.2.2 ++ r2.2.2)
    | .ok _ =>
      match searchResult with
      | .error e => (.error e, r2.2.1, r1.2.2 ++ r2.2.2)
      | .ok uids =>
        let old := ((assocFind r2.2.1.store.msn_index mh).getD []).take (low - 1)
        (.ok (),
         { r2.2.1 with store := { r2.2.1.store with
            msn_index := msnSet r2.2.1.store.msn_index mh (old ++ uids) } },
         r1.2.2 ++ r2.2.2)

/-- The `msn_index` guard of `select_mailbox` (connection.rs lines 915-923):
the entry for the mailbox is absent or empty. -/
def msnIsEmptyOrAbsent (st : ConnState) (mh : Nat) : Bool :=
  ((assocFind st.store.msn_index mh).map List.isEmpty).getD true

/-- Body of `select_mailbox` past the force/current-mailbox guard
(connection.rs lines 851-928): path and `\NoSelect` lookup, the SELECT round
trip, the `select_response` parse, storing the response in the mailboxes map
and refreshing permissions from the read-only bit, setting
`current_mailbox := Select(h)` through the fallible stream slot, and building
the MSN index by `UID SEARCH 1:*` when its entry is absent or empty.  The
offline-cache block (lines 879-896) only talks to the cache capability and
emits a non-fatal event on cache errors; it is not modelled. -/
def select_body (st : ConnState) (env : SelectEnv) (mh : Nat) :
    Except MError (Option SelectResponse) × ConnState × List Effect :=
  match assocFind st.store.mailboxes mh with
  | Option.none => (.error mailboxMissingErr, st, [])
  | some mb =>
    if mb.no_select then (.error (noSelectErr mb.imap_path), st, [])
    else
      let r1 := conn_send_command st env.send (.selectCmd mb.imap_path)
      match r1.1 with
      | .error e => (.error e, r1.2.1, r1.2.2)
      | .ok _ =>
        let r2 := conn_read_response r1.2.1 env.read { no_required := false }
        match r2.1 with
        | .error e => (.error e, r2.2.1, r1.2.2 ++ r2.2.2)
        | .ok _ =>
          match env.parse with
          | .error e => (.error e, r2.2.1, r1.2.2 ++ r2.2.2)
          | .ok sr =>
            let st3 : ConnState :=
              { r2.2.1 with store := { r2.2.1.store with
                  mailboxes := assocModify r2.2.1.store.mailboxes mh (fun m =>
                    { m with
                        select := some sr,
                        permissions :=
                          { create_messages := !sr.read_only,
                            remove_messages := !sr.read_only,
                            set_flags := !sr.read_only,
                            rename_messages := !sr.read_only,
                            delete_messages := !sr.read_only } }) } }
            match st3.stream with
            | .error e => (.error e, st3, r1.2.2 ++ r2.2.2)
            | .ok s3 =>
              let st4 : ConnState :=
                { st3 with stream := .ok { s3 with current_mailbox := .select mh } }
              if msnIsEmptyOrAbsent st4 mh then
                let r3 := create_uid_msn_cache st4 env.searchSend env.searchRead env.searchResult mh 1
                match r3.1 with
                | .error e => (.error e, r3.2.1, r1.2.2 ++ r2.2.2 ++ r3.2.2)
                | .ok _ => (.ok (some sr), r3.2.1, r1.2.2 ++ r2.2.2 ++ r3.2.2)
              else (.ok (some sr), st4, r1.2.2 ++ r2.2.2)

/-- `ImapConnection::select_mailbox` (connection.rs lines 841-928).  The guard
mirrors `!force && self.stream.as_ref()?.current_mailbox == Select(h)`:
short-circuit evaluation consults the fallible stream slot only when `force`
is false. -/
def select_mailbox (st : ConnState) (env : SelectEnv) (mh : Nat) (force : Bool) :
    Except MError (Option SelectResponse) × ConnState × List Effect :=
  if force then select_body st env mh
  else
    match st.stream with
    | .error e => (.error e, st, [])
    | .ok s =>
      if s.current_mailbox = .select mh then (.ok Option.none, st, [])
      else select_body st env mh

/-- Body of `examine_mailbox` past the guard (connection.rs lines 941-974):
like `select_body` but issuing EXAMINE, storing nothing in the mailboxes map,
leaving permissions alone, setting `current_mailbox := Examine(h)`, and — as
written in the source, line 961 — running `create_uid_msn_cache` exactly when
the MSN entry is NOT absent or empty (the negation of `select_body`'s
condition). -/
def examine_body (st : ConnState) (env : SelectEnv) (mh : Nat) :
    Except MError (Option SelectResponse) × ConnState × List Effect :=
  match assocFind st.store.mailboxes mh with
  | Option.none => (.error mailboxMissingErr, st, [])
  | some mb =>
    if mb.no_select then (.error (noSelectErr mb.imap_path), st, [])
    else
      let r1 := conn_send_command st env.send (.examineCmd mb.imap_path)
      match r1.1 with
      | .error e => (.error e, r1.2.1, r1.2.2)
      | .ok _ =>
        let r2 := conn_read_response r1.2.1 env.read { no_required := false }
        match r2.1 with
        | .error e => (.error e, r2.2.1, r1.2.2 ++ r2.2.2)
        | .ok _ =>
          match env.parse with
          | .error e => (.error e, r2.2.1, r1.2.2 ++ r2.2.2)
          | .ok sr =>
            match r2.2.1.stream with
            | .error e => (.error e, r2.2.1, r1.2.2 ++ r2.2.2)
            | .ok s3 =>
              let st4 : ConnState :=
                { r2.2.1 with stream := .ok { s3 with current_mailbox := .examine mh } }
              if !(msnIsEmptyOrAbsent st4 mh) then
                let r3 := create_uid_msn_cache st4 env.searchSend env.searchRead env.searchResult mh 1
                match r3.1 with
                | .error e => (.error e, r3.2.1, r1.2.2 ++ r2.2.2 ++ r3.2.2)
                | .ok _ => (.ok (some sr), r3.2.1, r1.2.2 ++ r2.2.2 ++ r3.2.2)
              else (.ok (some sr), st4, r1.2.2 ++ r2.2.2)

/-- `ImapConnection::examine_mailbox` (connection.rs lines 930-974). -/
def examine_mailbox (st : ConnState) (env : SelectEnv) (mh : Nat) (force : Bool) :
    Except MError (Option SelectResponse) × ConnState × List Effect :=
  if force then examine_body st env mh
  else
    match st.stream with
    | .error e => (.error e, st, [])
    | .ok s =>
      if s.current_mailbox = .examine mh then (.ok Option.none, st, [])
      else examine_body st env mh

/-- Oracle environment of `unselect`: outcomes for its single command round
trip. -/
structure UnselectEnv where
  send : SendEnv
  read : ReadEnv
deriving DecidableEq, Repr

/-- The nonexistent-name search of the RFC 3691 fallback (connection.rs lines
996-1002): extend "blurdybloop" with `p`s until it collides with no mailbox
path.  The source's `while` loop is given `|paths| + 1` iterations of fuel,
enough because each iteration rules out one existing path. -/
def freshName (paths : List String) : Nat → String → String
  | 0, cand => cand
  | k + 1, cand => if paths.contains cand then freshName paths k (cand ++ "p") else cand

/-- One command round trip of `unselect`: send the command, then read with
the given required-responses filter (connection.rs lines 988-990 and
1003-1006). -/
def unselect_round (st0 : ConnState) (env : UnselectEnv) (c : ImapCmd)
    (req : RequiredResponses) : Except MError Unit × ConnState × List Effect :=
  let r1 := conn_send_command st0 env.send c
  match r1.1 with
  | .error e => (.error e, r1.2.1, r1.2.2)
  | .ok _ =>
    let r2 := conn_read_response r1.2.1 env.read req
    match r2.1 with
    | .error e => (.error e, r2.2.1, r1.2.2 ++ r2.2.2)
    | .ok _ => (.ok (), r2.2.1, r1.2.2 ++ r2.2.2)

/-- `ImapConnection::unselect` (connection.rs lines 976-1012).
`current_mailbox.take()` clears the selection slot before anything is sent;
with UNSELECT advertised the UNSELECT command is issued, otherwise a SELECT of
a nonexistent name whose NO reply is expected (`NO_REQUIRED`). -/
def unselect (st : ConnState) (env : UnselectEnv) :
    Except MError Unit × ConnState × List Effect :=
  match st.stream with
  | .error e => (.error e, st, [])
  | .ok s =>
    match s.current_mailbox with
    | .none => (.ok (), st, [])
    | _ =>
      let st0 : ConnState := { st with stream := .ok { s with current_mailbox := .none } }
      if st0.store.capabilities.contains "UNSELECT" then
        unselect_round st0 env .unselectCmd { no_required := false }
      else
        let paths := st0.store.mailboxes.map (fun p => p.2.imap_path)
        unselect_round st0 env
          (.selectCmd (freshName paths (paths.length + 1) "blurdybloop"))
          { no_required := true }

/-- Oracle environment of `connect`: the elapsed seconds since the `is_online`
timestamp, the outcomes of the NOOP probe, of `ImapStream::new_connection`
(capabilities and fresh stream on success), and of the ENABLE/STATUS and
COMPRESS round trips of the rebuild path. -/
structure ConnectEnv where
  elapsed : Nat
  now : Nat
  noopSend : SendEnv
  noopRead : ReadEnv
  newConn : Except MError (List String × ImapStream)
  enableSend : SendEnv
  enableRead : ReadEnv
  compressSend : SendEnv
  compressRead : ReadEnv
deriving DecidableEq, Repr

/-- CONDSTORE upgrade step of `connect` (connection.rs lines 626-647): when
the new capabilities advertise CONDSTORE and the extension is enabled and the
sync policy is not `None`, send `ENABLE CONDSTORE` (or the STATUS fallback
without ENABLE), read the reply, and upgrade the sync policy. -/
def condstoreStep (st : ConnState) (env : ConnectEnv) (caps : List String) :
    Except MError Unit × ConnState × List Effect :=
  if caps.contains "CONDSTORE" && st.server.condstore then
    match st.sync_policy with
    | .noSync => (.ok (), st, [])
    | _ =>
      let r1 :=
        if caps.contains "ENABLE" then conn_send_command st env.enableSend .enableCondstore
        else conn_send_command st env.enableSend .statusInbox
      match r1.1 with
      | .error e => (.error e, r1.2.1, r1.2.2)
      | .ok _ =>
        let r2 := conn_read_response r1.2.1 env.enableRead { no_required := false }
        match r2.1 with
        | .error e => (.error e, r2.2.1, r1.2.2 ++ r2.2.2)
        | .ok _ => (.ok (), { r2.2.1 with sync_policy := .condstore }, r1.2.2 ++ r2.2.2)
  else (.ok (), st, [])

/-- COMPRESS=DEFLATE step of `connect` (connection.rs lines 648-684): send
`COMPRESS DEFLATE`, read the reply through `read_response` — whose `?` exits
the whole of `connect` when the reply converts to an error — then match the
parsed reply: on OK the stream is rebuilt around the deflate wrapper keeping
`cmd_id`, `protocol`, `current_mailbox` and `timeout` (lines 666-682); the
NO/BAD/PREAUTH/BYE arm logs a warning and keeps going (lines 655-665). -/
def deflateStep (st : ConnState) (env : ConnectEnv) (caps : List String) :
    Except MError Unit × ConnState × List Effect :=
  if caps.contains "COMPRESS=DEFLATE" && st.server.deflateEnabled then
    let r1 := conn_send_command st env.compressSend .compressDeflate
    match r1.1 with
    | .error e => (.error e, r1.2.1, r1.2.2)
    | .ok _ =>
      let r2 := conn_read_response r1.2.1 env.compressRead { no_required := false }
      match r2.1 with
      | .error e => (.error e, r2.2.1, r1.2.2 ++ r2.2.2)
      | .ok _ =>
        match env.compressRead.resp with
        | .ok =>
          match r2.2.1.stream with
          | .error e => (.error e, r2.2.1, r1.2.2 ++ r2.2.2)
          | .ok s =>
            (.ok (),
             { r2.2.1 with stream := .ok { s with deflateActive := true } },
             r1.2.2 ++ r2.2.2)
        | _ => (.ok (), r2.2.1, r1.2.2 ++ r2.2.2 ++ [.warn])
  else (.ok (), st, [])

/-- Rebuild path of `connect` (connection.rs lines 607-689): attempt
`ImapStream::new_connection`; on failure store the error in the `is_online`
status; on success install the fresh stream, stamp `is_online`, run the
CONDSTORE and COMPRESS steps, and finally replace the stored capabilities
wholesale. -/
def connect_rebuild (st : ConnState) (env : ConnectEnv) :
    Except MError Unit × ConnState × List Effect :=
  match env.newConn with
  | .error e =>
    (.error e,
     { st with store := { st.store with is_online := (st.store.is_online.1, .error e) } },
     [.newConn])
  | .ok (caps, ns) =>
    let st1 : ConnState :=
      { st with
          stream := .ok ns,
          store := { st.store with is_online := (env.now, .ok ()) } }
    let r2 := condstoreStep st1 env caps
    match r2.1 with
    | .error e => (.error e, r2.2.1, .newConn :: r2.2.2)
    | .ok _ =>
      let r3 := deflateStep r2.2.1 env caps
      match r3.1 with
      | .error e => (.error e, r3.2.1, .newConn :: (r2.2.2 ++ r3.2.2))
      | .ok _ =>
        (.ok (),
         { r3.2.1 with store := { r3.2.1.store with capabilities := caps } },
         .newConn :: (r2.2.2 ++ r3.2.2))

/-- `ImapConnection::connect` (connection.rs lines 574-691).  First the
28-minute protocol-idle ceiling: when the `is_online` status is OK but
`elapsed` reaches `IMAP_PROTOCOL_TIMEOUT` the status and the stream slot are
replaced by a timeout error.  Then, when the stream slot is OK, a NOOP round
trip decides liveness: on success `connect` returns at once; any failure
falls through to the rebuild path. -/
def connect (st : ConnState) (env : ConnectEnv) :
    Except MError Unit × ConnState × List Effect :=
  let stA : ConnState :=
    match st.store.is_online with
    | (t, .ok _) =>
      if 1680 ≤ env.elapsed then
        { st with
            stream := .error protocolTimeoutErr,
            store := { st.store with is_online := (t, .error protocolTimeoutErr) } }
      else st
    | _ => st
  match stA.stream with
  | .ok _ =>
    let r1 := conn_send_command stA env.noopSend .noop
    match r1.1 with
    | .ok _ =>
      let r2 := conn_read_response r1.2.1 env.noopRead { no_required := false }
      match r2.1 with
      | .ok _ => (.ok (), r2.2.1, r1.2.2 ++ r2.2.2)
      | .error _ =>
        let r3 := connect_rebuild r2.2.1 env
        (r3.1, r3.2.1, r1.2.2 ++ r2.2.2 ++ r3.2.2)
    | .error _ =>
      let r3 := connect_rebuild r1.2.1 env
      (r3.1, r3.2.1, r1.2.2 ++ r3.2.2)
  | .error _ =>
    let r3 := connect_rebuild stA env
    (r3.1, r3.2.1, r3.2.2)

/-!  The IDLE watcher loop (watch.rs lines 123-197).  One loop iteration is
driven by the outcome of `timeout(Some(10 minutes), blockn.as_stream())`:
either the read timed out after ten silent minutes, or a line arrived `dlt`
seconds into the wait (`dlt < 600`), or the stream ended.  The model keeps the
wall clock, the `watch` instant of the peer-poll timer, the times at which
DONE was sent, the heartbeat (timeout-branch) times and the peer-poll batches,
abstracting the I/O of each branch into the recorded events. -/

/-- One read outcome of the IDLE loop: the 10-minute read timeout fired, a
line arrived after `dlt` seconds (`chatterOnly` when every line of the record
is a `+ ` continuation or `* OK` chatter, watch.rs lines 162-175), or the
stream ended. -/
inductive IdleStep
  | timeoutStep
  | lineStep (dlt : Nat) (chatterOnly : Bool)
  | dropStep
deriving DecidableEq, Repr

/-- Observable state of the IDLE loop. -/
structure IdleState where
  now : Nat
  watch : Nat
  lastDone : Nat
  heartbeats : List Nat
  dones : List Nat
  polls : List (Nat × List Nat)
  reconnects : Nat
deriving DecidableEq, Repr

/-- State at IDLE entry (watch.rs lines 123-125): the IDLE command was just
sent and `watch = Instant::now()`. -/
def idleInit : IdleState :=
  { now := 0, watch := 0, lastDone := 0, heartbeats := [], dones := [], polls := [], reconnects := 0 }

/-- One iteration of the IDLE loop body (watch.rs lines 130-197), with `mbs`
the snapshot of the mailboxes map cloned before the loop (lines 113-116).
The timeout branch (lines 140-151) sends DONE, drains, re-enters IDLE,
refreshes the main connection and `continue`s — this is the heartbeat.  The
dropped branch (lines 133-139) reconnects both connections and `continue`s.
When a line arrives (line 153 onward): first, if five minutes have passed
since `watch`, every mailbox of `mbs` is examined through the main connection
and `watch` resets; then, unless the record is all chatter, DONE is sent, the
untagged responses are processed and IDLE is re-entered. -/
def idleStep (mbs : List Nat) (st : IdleState) (ev : IdleStep) : IdleState :=
  match ev with
  | .timeoutStep =>
    let t := st.now + 600
    { st with
        now := t, lastDone := t,
        heartbeats := st.heartbeats ++ [t],
        dones := st.dones ++ [t] }
  | .dropStep => { st with reconnects := st.reconnects + 1 }
  | .lineStep dlt chatterOnly =>
    let t := st.now + dlt
    let st1 : IdleState := { st with now := t }
    let st2 : IdleState :=
      if 300 ≤ t - st1.watch then { st1 with polls := st1.polls ++ [(t, mbs)], watch := t }
      else st1
    if chatterOnly then st2
    else { st2 with dones := st2.dones ++ [t], lastDone := t }

/-- The IDLE loop run over a sequence of read outcomes. -/
def idleRun (mbs : List Nat) (evs : List IdleStep) : IdleState :=
  evs.foldl (idleStep mbs) idleInit

/-- The times at which ten minutes elapse with no line arriving since the
current read began: the spec-level description of when the code's heartbeat
branch runs. -/
def silentHeartbeatTimes (now : Nat) : List IdleStep → List Nat
  | [] => []
  | .timeoutStep :: r => (now + 600) :: silentHeartbeatTimes (now + 600) r
  | .lineStep dlt _ :: r => silentHeartbeatTimes (now + dlt) r
  | .dropStep :: r => silentHeartbeatTimes now r

/-!  Resynchronization deduplication (watch.rs lines 366-451): the fetch-row
loop of `examine_updates` that inserts accepted envelopes into the UID-store
maps and emits their `Create` events. -/

/-- An envelope hash. -/
abbrev EnvHash := String × Nat

/-- Modelled from the spec: `generate_envelope_hash` is not among the sources.
"An envelope hash is derived deterministically from (mailbox_imap_path, uid)"
(§3), so the model takes the pair itself — the deterministic, collision-free
idealization of the hash. -/
def generate_envelope_hash (path : String) (uid : Nat) : EnvHash := (path, uid)

/-- One `FetchResponse` row as consumed by the emission loop (watch.rs lines
409-412): its UID and whether an envelope was parsed.  The envelope's hash was
already set to `generate_envelope_hash(imap_path, uid)` by the assembly loop
(line 378). -/
structure FetchRow where
  uid : Option Nat
  has_envelope : Bool
deriving DecidableEq, Repr

/-- The three UID-store maps the emission loop edits: `uid_index` keyed by
`(mailbox_hash, uid)`, `hash_index` keyed by envelope hash, and `msn_index`. -/
structure SyncMaps where
  uid_index : List ((Nat × Nat) × EnvHash)
  hash_index : List (EnvHash × (Nat × Nat))
  msn_index : List (Nat × List Nat)
deriving DecidableEq, Repr

/-- `uid_index.contains_key(&(mailbox_hash, uid))` (watch.rs lines 414-419). -/
def uidIndexContains (m : List ((Nat × Nat) × EnvHash)) (k : Nat × Nat) : Bool :=
  m.any (fun p => decide (p.1 = k))

/-- The `msn_index` edit of the emission loop (watch.rs lines 429-435):
`entry(mailbox_hash).or_default().push(uid)`. -/
def msnPush (m : List (Nat × List Nat)) (mh uid : Nat) : List (Nat × List Nat) :=
  if m.any (fun p => decide (p.1 = mh)) then
    m.map (fun p => if p.1 = mh then (p.1, p.2 ++ [uid]) else p)
  else m ++ [(mh, [uid])]

/-- One iteration of the emission loop (watch.rs lines 409-451): skip rows
without UID or envelope; skip rows whose `(mailbox_hash, uid)` is already in
`uid_index`; otherwise push the UID on `msn_index`, insert into `hash_index`
and `uid_index`, and only then emit the `Create` refresh event (recorded as
the pair of mailbox hash and envelope hash). -/
def processFetchRow (path : String) (mh : Nat) (acc : SyncMaps × List (Nat × EnvHash))
    (row : FetchRow) : SyncMaps × List (Nat × EnvHash) :=
  match row.uid, row.has_envelope with
  | some uid, true =>
    if uidIndexContains acc.1.uid_index (mh, uid) then acc
    else
      ({ uid_index := acc.1.uid_index ++ [((mh, uid), generate_envelope_hash path uid)],
         hash_index := acc.1.hash_index ++ [(generate_envelope_hash path uid, (uid, mh))],
         msn_index := msnPush acc.1.msn_index mh uid },
       acc.2 ++ [(mh, generate_envelope_hash path uid)])
  | _, _ => acc

/-- The emission loop over the rows of one `examine_updates` FETCH. -/
def processFetchRows (path : String) (mh : Nat) (acc : SyncMaps × List (Nat × EnvHash))
    (rows : List FetchRow) : SyncMaps × List (Nat × EnvHash) :=
  rows.foldl (processFetchRow path mh) acc

/-- A sequence of `examine_updates` passes over the same mailbox, starting
from arbitrary maps, accumulating the emitted `Create` events. -/
def runExamineUpdates (path : String) (mh : Nat) (maps : SyncMaps)
    (rowss : List (List FetchRow)) : SyncMaps × List (Nat × EnvHash) :=
  rowss.foldl (processFetchRows path mh) (maps, [])

/-!  LOGIN framing (connection.rs lines 372-391): the username is embedded in
a quoted string with backslash, double quote and both braces backslash-escaped
by four successive `str::replace` passes, and the password travels as an IMAP
literal: the command declares `{<byte count>}`, the client waits for the
continuation request, then `send_literal` writes the password bytes untouched.
Usernames and passwords are byte lists; the relevant characters are ASCII, so
Rust's char-by-char `replace` coincides with the byte-level one. -/

/-- `str::replace` of one (ASCII) character by a string, at byte level. -/
def replaceByte (t : Nat) (r : List Nat) : List Nat → List Nat
  | [] => []
  | c :: cs => (if c = t then r else [c]) ++ replaceByte t r cs

/-- The username escaping of `ImapStream::new_connection` (connection.rs lines
376-381): replace `\` by `\\`, then `"` by `\"`, then each brace by its
backslash-prefixed form (92, 34, 123, 125 are the code points of backslash,
double quote and the two braces). -/
def rustEscapeUser (u : List Nat) : List Nat :=
  replaceByte 125 [92, 125]
    (replaceByte 123 [92, 123]
      (replaceByte 34 [92, 34]
        (replaceByte 92 [92, 92] u)))

/-- The spec-level escape: each of backslash, double quote and the braces is
backslash-prefixed, every other byte passes through. -/
def specEscapeUser (u : List Nat) : List Nat :=
  u.flatMap (fun c => if c = 92 ∨ c = 34 ∨ c = 123 ∨ c = 125 then [92, c] else [c])

/-- The decimal rendering of a number as bytes. -/
def decimalBytes (n : Nat) : List Nat :=
  (Nat.repr n).toList.map Char.toNat

/-- The LOGIN command bytes (connection.rs lines 373-385):
`LOGIN "<escaped user>" ` followed by the literal marker holding the
password's byte count between the brace bytes 123 and 125. -/
def loginCommandBytes (user pass : List Nat) : List Nat :=
  [76, 79, 71, 73, 78, 32, 34] ++ rustEscapeUser user
    ++ [34, 32, 123] ++ decimalBytes pass.length ++ [125]

/-- The three wire steps of the LOGIN exchange. -/
inductive LoginStep
  | command (bytes : List Nat)
  | waitContinuation
  | literal (bytes : List Nat)
deriving DecidableEq, Repr

/-- The LOGIN phase of `ImapStream::new_connection` (connection.rs lines
373-391): send the LOGIN command, wait for the `+ ` continuation request, then
send the password bytes as the literal. -/
def login_phase (user pass : List Nat) : List LoginStep :=
  [.command (loginCommandBytes user pass), .waitContinuation, .literal pass]

/-- Invariant of the emission loop: every already-emitted `Create` has its
`(mailbox_hash, uid)` key present in `uid_index`, and the emitted UIDs are
pairwise distinct. -/
def emitInv (mh : Nat) (acc : SyncMaps × List (Nat × EnvHash)) : Prop :=
  (∀ e ∈ acc.2, uidIndexContains acc.1.uid_index (mh, e.2.2) = true)
  ∧ List.Pairwise (· ≠ ·) (acc.2.map (fun e => e.2.2))

/-- Concrete fixtures for the connection-layer witnesses. -/
def allowAll : Permissions :=
  { create_messages := true, remove_messages := true, set_flags := true,
    rename_messages := true, delete_messages := true }

def inboxInfo : MailboxInfo :=
  { imap_path := "INBOX", no_select := false, permissions := allowAll, select := Option.none }

def emptySelectResponse : SelectResponse :=
  { exists_count := 0, recent := 0, uidvalidity := 1, uidnext := 1, read_only := false }

def freshStream : ImapStream :=
  { cmd_id := 1, current_mailbox := .none, timeout := Option.none, deflateActive := false }

def baseStore : UIDStore :=
  { is_online := (0, .ok ()), capabilities := [], mailboxes := [(7, inboxInfo)],
    msn_index := [], keep_offline_cache := false }

def baseConn : ConnState :=
  { stream := .ok freshStream, store := baseStore,
    server := { condstore := false, deflateEnabled := false }, sync_policy := .noSync }

def okSendEnv : SendEnv :=
  { writeErr := Option.none, reconnect := .error { msg := "unused", network := false },
    reconnectCaps := [], now := 5 }

def okReadEnv : ReadEnv := { readErr := Option.none, resp := .ok, now := 6 }

def happySelectEnv : SelectEnv :=
  { send := okSendEnv, read := okReadEnv, parse := .ok emptySelectResponse,
    searchSend := okSendEnv, searchRead := okReadEnv, searchResult := .ok [11, 12] }

/-- A connection whose stream has mailbox 7 already selected. -/
def selectedConn : ConnState :=
  { baseConn with stream := .ok { freshStream with current_mailbox := .select 7 } }

/-- Concrete instance of `examine_updates_create_dedup`: a duplicate UID is
skipped, and a two-row pass emits distinct envelope hashes. -/
def c3maps : SyncMaps :=
  { uid_index := [((7, 2), ("INBOX", 2))],
    hash_index := [(("INBOX", 2), (2, 7))],
    msn_index := [(7, [2])] }

/-- A connection like `baseConn` whose MSN index for mailbox 7 is already
populated. -/
def popConn : ConnState :=
  { baseConn with store := { baseStore with msn_index := [(7, [99])] } }

/-- An offline connection configured with the DEFLATE extension enabled. -/
def offlineConn : ConnState :=
  { baseConn with
      stream := .error { msg := "Offline", network := false },
      server := { condstore := false, deflateEnabled := true } }

/-- A `connect` environment whose rebuild succeeds with COMPRESS=DEFLATE
advertised and whose COMPRESS DEFLATE round trip gets the scenario-S6 `NO`
reply. -/
def compressNoEnv : ConnectEnv :=
  { elapsed := 0, now := 1, noopSend := okSendEnv, noopRead := okReadEnv,
    newConn := .ok (["IMAP4rev1", "COMPRESS=DEFLATE"], freshStream),
    enableSend := okSendEnv, enableRead := okReadEnv,
    compressSend := okSendEnv,
    compressRead := { readErr := Option.none, resp := .no, now := 2 } }

/-- Same, with the server accepting COMPRESS DEFLATE. -/
def compressOkEnv : ConnectEnv :=
  { compressNoEnv with compressRead := { readErr := Option.none, resp := .ok, now := 2 } }

/-- Same, with the server answering the COMPRESS command with BYE. -/
def compressByeEnv : ConnectEnv :=
  { compressNoEnv with compressRead := { readErr := Option.none, resp := .bye, now := 2 } }

/-- A `connect` environment for a healthy connection: fresh `is_online`
timestamp and a NOOP that round-trips. -/
def healthyConnectEnv : ConnectEnv :=
  { elapsed := 100, now := 3, noopSend := okSendEnv, noopRead := okReadEnv,
    newConn := .error { msg := "unused", network := false },
    enableSend := okSendEnv, enableRead := okReadEnv,
    compressSend := okSendEnv, compressRead := okReadEnv }

/-- A network-class write failure. -/
def netErr : MError := { msg := "broken pipe", network := true }

/-- A distinct error with which the reconnection attempt itself fails. -/
def reconnFailErr : MError := { msg := "reconnect refused", network := false }

/-- A send environment whose write fails with a network error and whose
reconnection attempt fails with a different error. -/
def failSendEnv : SendEnv :=
  { writeErr := some netErr, reconnect := .error reconnFailErr, reconnectCaps := [], now := 9 }

/-- The connection records no selected mailbox: whenever the stream slot is
OK, its `current_mailbox` is `None`. -/
def selectionCleared (st : ConnState) : Prop :=
  ∀ s', st.stream = .ok s' → s'.current_mailbox = .none

/-!  Theorems. -/

theorem replaceByte_append (t : Nat) (r xs ys : List Nat) :
    replaceByte t r (xs ++ ys) = replaceByte t r xs ++ replaceByte t r ys := by
  induction xs with
  | nil => rfl
  | cons c cs ih => simp [replaceByte, ih]

theorem rustEscapeUser_cons (c : Nat) (cs : List Nat) :
    rustEscapeUser (c :: cs) = rustEscapeUser [c] ++ rustEscapeUser cs := by
  have h : (c :: cs) = [c] ++ cs := rfl
  rw [rustEscapeUser, h, replaceByte_append, replaceByte_append, replaceByte_append,
    replaceByte_append]
  rfl

theorem rustEscapeUser_eq_spec (u : List Nat) : rustEscapeUser u = specEscapeUser u := by
  induction u with
  | nil => rfl
  | cons c cs ih =>
    have hspec : specEscapeUser (c :: cs) = specEscapeUser [c] ++ specEscapeUser cs := by
      simp [specEscapeUser]
    rw [rustEscapeUser_cons, hspec, ih]
    congr 1
    by_cases h92 : c = 92
    · subst h92; rfl
    by_cases h34 : c = 34
    · subst h34; rfl
    by_cases h123 : c = 123
    · subst h123; rfl
    by_cases h125 : c = 125
    · subst h125; rfl
    simp [rustEscapeUser, replaceByte, specEscapeUser, h92, h34, h123, h125]

/-- Claim C8: for every username and password, LOGIN sends the username quoted
with backslash, double quote and both braces backslash-prefixed, and sends the
password as a literal whose declared length is the password's byte count,
transmitted unescaped after waiting for the server's continuation request. -/
theorem login_escapes_user_and_sends_password_literal (user pass : List Nat) :
    login_phase user pass =
      [LoginStep.command ([76, 79, 71, 73, 78, 32, 34] ++ specEscapeUser user
          ++ [34, 32, 123] ++ decimalBytes pass.length ++ [125]),
       LoginStep.waitContinuation, LoginStep.literal pass] := by
  simp [login_phase, loginCommandBytes, rustEscapeUser_eq_spec]

theorem uidIndexContains_append (m : List ((Nat × Nat) × EnvHash)) (x : (Nat × Nat) × EnvHash)
    (k : Nat × Nat) (h : uidIndexContains m k = true) :
    uidIndexContains (m ++ [x]) k = true := by
  simp only [uidIndexContains, List.any_append] at *
  simp [h]

theorem emitInv_step (path : String) (mh : Nat) (acc : SyncMaps × List (Nat × EnvHash))
    (row : FetchRow) (h : emitInv mh acc) : emitInv mh (processFetchRow path mh acc row) := by
  obtain ⟨hkeys, hpw⟩ := h
  obtain ⟨u, envp⟩ := row
  cases u with
  | none => exact ⟨hkeys, hpw⟩
  | some uid =>
    cases envp with
    | false => exact ⟨hkeys, hpw⟩
    | true =>
      by_cases hc : uidIndexContains acc.1.uid_index (mh, uid) = true
      · show emitInv mh (if uidIndexContains acc.1.uid_index (mh, uid) then _ else _)
        rw [if_pos hc]
        exact ⟨hkeys, hpw⟩
      · show emitInv mh (if uidIndexContains acc.1.uid_index (mh, uid) then _ else _)
        rw [if_neg hc]
        constructor
        · show ∀ e ∈ acc.2 ++ [(mh, generate_envelope_hash path uid)],
            uidIndexContains
              (acc.1.uid_index ++ [((mh, uid), generate_envelope_hash path uid)])
              (mh, e.2.2) = true
          intro e he
          rcases List.mem_append.mp he with he | he
          · exact uidIndexContains_append _ _ _ (hkeys e he)
          · rw [List.mem_singleton.mp he]
            simp [uidIndexContains, List.any_append, generate_envelope_hash]
        · show List.Pairwise (· ≠ ·)
            ((acc.2 ++ [(mh, generate_envelope_hash path uid)]).map (fun e => e.2.2))
          rw [List.map_append, List.pairwise_append]
          refine ⟨hpw, ?_, ?_⟩
          · simp
          · intro a ha b hb
            simp only [List.mem_map] at ha
            obtain ⟨e, he, rfl⟩ := ha
            simp only [List.map_cons, List.map_nil, List.mem_singleton] at hb
            subst hb
            intro hcontra
            apply hc
            have hk := hkeys e he
            rw [← hcontra]
            exact hk

theorem emitInv_rows (path : String) (mh : Nat) (acc : SyncMaps × List (Nat × EnvHash))
    (rows : List FetchRow) (h : emitInv mh acc) :
    emitInv mh (processFetchRows path mh acc rows) := by
  induction rows generalizing acc with
  | nil => exact h
  | cons r rs ih => exact ih _ (emitInv_step path mh acc r h)

theorem emitInv_run (path : String) (mh : Nat) (maps : SyncMaps)
    (rowss : List (List FetchRow)) :
    emitInv mh (runExamineUpdates path mh maps rowss) := by
  have base : emitInv mh ((maps, []) : SyncMaps × List (Nat × EnvHash)) := by
    constructor
    · intro e he; simp at he
    · simp
  unfold runExamineUpdates
  generalize hacc : ((maps, []) : SyncMaps × List (Nat × EnvHash)) = acc0
  rw [hacc] at base
  clear hacc
  induction rowss generalizing acc0 with
  | nil => exact base
  | cons rs rss ih => exact ih _ (emitInv_rows path mh acc0 rs base)

/-- Claim C3: in the `examine_updates` emission loop every FETCH row whose
`(mailbox_hash, uid)` is already in `uid_index` is skipped and emits nothing;
each accepted row is inserted into `msn_index`, `hash_index` and `uid_index`
in the same step that appends its `Create` event; consequently, across any
sequence of `examine_updates` passes over a mailbox (during which no removal
occurs), no two emitted `Create` events carry the same envelope hash. -/
theorem examine_updates_create_dedup (path : String) (mh : Nat) (maps : SyncMaps)
    (rowss : List (List FetchRow)) :
    (∀ (acc : SyncMaps × List (Nat × EnvHash)) (row : FetchRow) (uid : Nat),
        row.uid = some uid →
        uidIndexContains acc.1.uid_index (mh, uid) = true →
        processFetchRow path mh acc row = acc)
    ∧ (∀ (acc : SyncMaps × List (Nat × EnvHash)) (row : FetchRow) (uid : Nat),
        row.uid = some uid → row.has_envelope = true →
        uidIndexContains acc.1.uid_index (mh, uid) = false →
        processFetchRow path mh acc row =
          ({ uid_index := acc.1.uid_index ++ [((mh, uid), generate_envelope_hash path uid)],
             hash_index := acc.1.hash_index ++ [(generate_envelope_hash path uid, (uid, mh))],
             msn_index := msnPush acc.1.msn_index mh uid },
           acc.2 ++ [(mh, generate_envelope_hash path uid)]))
    ∧ List.Pairwise (· ≠ ·) ((runExamineUpdates path mh maps rowss).2.map Prod.snd) := by
  refine ⟨?_, ?_, ?_⟩
  · intro acc row uid hu hc
    unfold processFetchRow
    rw [hu]
    match hrow : row.has_envelope with
    | false => rfl
    | true => simp [hc]
  · intro acc row uid hu he hc
    unfold processFetchRow
    rw [hu, he]
    simp [hc]
  · have h := (emitInv_run path mh maps rowss).2
    have h2 : List.Pairwise (fun a b : Nat × EnvHash => a.2.2 ≠ b.2.2)
        (runExamineUpdates path mh maps rowss).2 := (List.pairwise_map).mp h
    have h3 : List.Pairwise (fun a b : Nat × EnvHash => a.2 ≠ b.2)
        (runExamineUpdates path mh maps rowss).2 := by
      refine h2.imp ?_
      intro a b hab hcontra
      exact hab (by rw [hcontra])
    exact (List.pairwise_map).mpr h3

theorem examine_updates_create_dedup_witness :
    processFetchRow "INBOX" 7 (c3maps, []) { uid := some 2, has_envelope := true } = (c3maps, [])
    ∧ List.Pairwise (· ≠ ·) ((runExamineUpdates "INBOX" 7 c3maps
        [[{ uid := some 2, has_envelope := true }, { uid := some 3, has_envelope := true }],
         [{ uid := some 3, has_envelope := true }]]).2.map Prod.snd) := by
  refine ⟨?_, ?_⟩
  · exact (examine_updates_create_dedup "INBOX" 7 c3maps []).1 (c3maps, [])
      { uid := some 2, has_envelope := true } 2 rfl (by decide)
  · exact (examine_updates_create_dedup "INBOX" 7 c3maps
      [[{ uid := some 2, has_envelope := true }, { uid := some 3, has_envelope := true }],
       [{ uid := some 3, has_envelope := true }]]).2.2

/-- Claim C1: with the stream OK and the mailbox already selected,
`select_mailbox(h, force=false)` returns `Ok(None)` with an unchanged state
and an empty wire trace; and when a first unforced `select_mailbox(h)` goes
through against a healthy server, it issues exactly one SELECT and the second
consecutive call is the `Ok(None)` no-op, so SELECT is issued exactly once
across the two calls. -/
theorem select_mailbox_idempotent (st : ConnState) (env env2 : SelectEnv)
    (mh : Nat) (s : ImapStream) (mb : MailboxInfo) (sr : SelectResponse) (uids : List Nat)
    (hs : st.stream = .ok s) :
    (s.current_mailbox = .select mh →
      select_mailbox st env mh false = (.ok Option.none, st, []))
    ∧ (s.current_mailbox ≠ .select mh →
        assocFind st.store.mailboxes mh = some mb →
        mb.no_select = false →
        env.send.writeErr = Option.none →
        env.read.readErr = Option.none →
        env.read.resp = .ok →
        env.parse = .ok sr →
        env.searchSend.writeErr = Option.none →
        env.searchRead.readErr = Option.none →
        env.searchRead.resp = .ok →
        env.searchResult = .ok uids →
        (select_mailbox st env mh false).1 = .ok (some sr)
        ∧ countSelect (select_mailbox st env mh false).2.2 = 1
        ∧ select_mailbox (select_mailbox st env mh false).2.1 env2 mh false
            = (.ok Option.none, (select_mailbox st env mh false).2.1, [])) := by
  constructor
  · intro hcur
    simp [select_mailbox, hs, hcur]
  · intro hne hmb hns h1 h2 h3 h4 h5 h6 h7 h8
    by_cases hm : ((assocFind st.store.msn_index mh).map List.isEmpty).getD true = true
    · simp only [select_mailbox, Bool.false_eq_true, if_false, hs, hne, select_body,
        conn_send_command, conn_read_response, create_uid_msn_cache, msnIsEmptyOrAbsent,
        hmb, hns, h1, h2, h3, h4, h5, h6, h7, h8, hm]
      simp [countSelect]
    · simp only [select_mailbox, Bool.false_eq_true, if_false, hs, hne, select_body,
        conn_send_command, conn_read_response, create_uid_msn_cache, msnIsEmptyOrAbsent,
        hmb, hns, h1, h2, h3, h4, h5, h6, h7, h8, hm]
      simp [countSelect]

theorem select_mailbox_idempotent_witness :
    select_mailbox selectedConn happySelectEnv 7 false = (.ok Option.none, selectedConn, [])
    ∧ (select_mailbox baseConn happySelectEnv 7 false).1 = .ok (some emptySelectResponse)
    ∧ countSelect (select_mailbox baseConn happySelectEnv 7 false).2.2 = 1
    ∧ select_mailbox (select_mailbox baseConn happySelectEnv 7 false).2.1 happySelectEnv 7 false
        = (.ok Option.none, (select_mailbox baseConn happySelectEnv 7 false).2.1, []) := by
  refine ⟨?_, ?_⟩
  · exact (select_mailbox_idempotent selectedConn happySelectEnv happySelectEnv 7
      { freshStream with current_mailbox := .select 7 } inboxInfo emptySelectResponse [11, 12]
      rfl).1 rfl
  · exact (select_mailbox_idempotent baseConn happySelectEnv happySelectEnv 7
      freshStream inboxInfo emptySelectResponse [11, 12] rfl).2
      (by decide) rfl rfl rfl rfl rfl rfl rfl rfl rfl rfl

/-- Claim C7 (code evaluation): `examine_mailbox` inverts `select_mailbox`'s
MSN-index condition (the `!` at connection.rs line 961).  After a successful
EXAMINE with the MSN entry absent, no `UID SEARCH 1:*` is issued and the index
stays empty; with the entry populated, the search IS issued and the index is
rebuilt from the search result; the same state under `select_mailbox` does
issue the search when the entry is absent. -/
theorem examine_msn_condition_inverted :
    (examine_mailbox baseConn happySelectEnv 7 true).1 = .ok (some emptySelectResponse)
    ∧ Effect.cmd (.uidSearch 1) ∉ (examine_mailbox baseConn happySelectEnv 7 true).2.2
    ∧ (examine_mailbox baseConn happySelectEnv 7 true).2.1.store.msn_index = []
    ∧ Effect.cmd (.uidSearch 1) ∈ (examine_mailbox popConn happySelectEnv 7 true).2.2
    ∧ (examine_mailbox popConn happySelectEnv 7 true).2.1.store.msn_index = [(7, [11, 12])]
    ∧ Effect.cmd (.uidSearch 1) ∈ (select_mailbox baseConn happySelectEnv 7 true).2.2 := by
  decide

/-- Claim C2: with the stream OK, the stored `is_online` status OK and fresh
(less than 28 minutes old) and a NOOP that round-trips, `connect()` returns
`Ok(())` keeping the very same stream (only the tag counter moved for the
NOOP), performing exactly one NOOP round trip and opening no new connection;
and a second consecutive `connect()` behaves the same on the resulting
state. -/
theorem connect_idempotent_on_healthy_stream (st : ConnState) (env env2 : ConnectEnv)
    (s : ImapStream) (t0 : Nat)
    (hs : st.stream = .ok s)
    (ho : st.store.is_online = (t0, .ok ()))
    (he : env.elapsed < 1680)
    (hw : env.noopSend.writeErr = Option.none)
    (hr : env.noopRead.readErr = Option.none)
    (hresp : env.noopRead.resp = .ok)
    (he2 : env2.elapsed < 1680)
    (hw2 : env2.noopSend.writeErr = Option.none)
    (hr2 : env2.noopRead.readErr = Option.none)
    (hresp2 : env2.noopRead.resp = .ok) :
    (connect st env).1 = .ok ()
    ∧ (connect st env).2.1.stream = .ok { s with cmd_id := s.cmd_id + 1 }
    ∧ (connect st env).2.2 = [.cmd .noop, .readResp]
    ∧ (connect (connect st env).2.1 env2).1 = .ok ()
    ∧ (connect (connect st env).2.1 env2).2.2 = [.cmd .noop, .readResp] := by
  have he' : ¬ 1680 ≤ env.elapsed := by omega
  have he2' : ¬ 1680 ≤ env2.elapsed := by omega
  simp only [connect, conn_send_command, conn_read_response, hs, ho, he', hw, hr, hresp,
    he2', hw2, hr2, hresp2, if_false]
  simp

theorem connect_idempotent_witness :
    (connect baseConn healthyConnectEnv).1 = .ok ()
    ∧ (connect baseConn healthyConnectEnv).2.1.stream = .ok { freshStream with cmd_id := 2 }
    ∧ (connect baseConn healthyConnectEnv).2.2 = [.cmd .noop, .readResp]
    ∧ (connect (connect baseConn healthyConnectEnv).2.1 healthyConnectEnv).1 = .ok ()
    ∧ (connect (connect baseConn healthyConnectEnv).2.1 healthyConnectEnv).2.2
        = [.cmd .noop, .readResp] :=
  connect_idempotent_on_healthy_stream baseConn healthyConnectEnv healthyConnectEnv
    freshStream 0 rfl rfl (by decide) rfl rfl rfl (by decide) rfl rfl rfl

/-- Claim C9 (code evaluation): at the S6 scenario — COMPRESS=DEFLATE
advertised and enabled, server answers `COMPRESS DEFLATE` with NO —
`read_response` converts the NO to an error after emitting an ERROR notice and
the `?` in `connect` propagates it: `connect` fails, the warning of the
NO/BAD match arm is never logged, the capabilities are not stored, and the
stream is left uncompressed.  For contrast: an OK reply rebuilds the stream
with the deflate wrapper preserving `cmd_id`, `current_mailbox` and `timeout`,
and a BYE reply does reach the warning arm but leaves the stream slot holding
the offline error. -/
theorem compress_no_reply_aborts_connect :
    (connect offlineConn compressNoEnv).1 = .error imapNoErr
    ∧ Effect.warn ∉ (connect offlineConn compressNoEnv).2.2
    ∧ Effect.notice ∈ (connect offlineConn compressNoEnv).2.2
    ∧ (connect offlineConn compressNoEnv).2.1.stream = .ok { freshStream with cmd_id := 2 }
    ∧ (connect offlineConn compressNoEnv).2.1.store.capabilities = []
    ∧ (connect offlineConn compressOkEnv).1 = .ok ()
    ∧ (connect offlineConn compressOkEnv).2.1.stream
        = .ok { freshStream with cmd_id := 2, deflateActive := true }
    ∧ (connect offlineConn compressByeEnv).1 = .ok ()
    ∧ Effect.warn ∈ (connect offlineConn compressByeEnv).2.2
    ∧ (connect offlineConn compressByeEnv).2.1.stream = .error offlineByeErr := by
  decide

/-- Claim C4 (counterexample): when the write fails with a network-class error
and the reconnection attempt itself fails, the call returns the reconnection
error, not the original one. -/
theorem send_failure_returns_reconnect_error :
    (conn_send_command baseConn failSendEnv .noop).1 = .error reconnFailErr
    ∧ reconnFailErr ≠ netErr := by
  decide

/-- Claim C4 (amended): whenever `send_command`/`send_literal`/`send_raw`
fails, the stream slot is replaced by the error; exactly one `connect()` cycle
is attempted iff the error is network-class; the call returns the original
error when no reconnection is attempted or when the reconnection succeeds
(even though the stream is healthy again), and returns the reconnection error
when the reconnection attempt itself fails. -/
theorem send_failure_marks_stream_and_reconnects (st : ConnState) (env : SendEnv)
    (c : ImapCmd) (data : List Nat) (raw : String) (s : ImapStream) (e : MError)
    (hs : st.stream = .ok s) (hw : env.writeErr = some e) :
    conn_send_command st env c = sendFailureCont st env e
    ∧ conn_send_literal st env data = sendFailureCont st env e
    ∧ conn_send_raw st env raw = sendFailureCont st env e
    ∧ (e.network = false →
        sendFailureCont st env e = (.error e, { st with stream := .error e }, []))
    ∧ (∀ e2, e.network = true → env.reconnect = .error e2 →
        sendFailureCont st env e
          = (.error e2, { st with stream := .error e }, [.reconnectAttempt]))
    ∧ (∀ rs, e.network = true → env.reconnect = .ok rs →
        (sendFailureCont st env e).1 = .error e
        ∧ countReconnect (sendFailureCont st env e).2.2 = 1
        ∧ (sendFailureCont st env e).2.1.stream = .ok { rs with current_mailbox := .none }) := by
  refine ⟨?_, ?_, ?_, ?_, ?_, ?_⟩
  · simp only [conn_send_command, hs, hw]
  · simp only [conn_send_literal, hs, hw]
  · simp only [conn_send_raw, hs, hw]
  · intro hn
    simp [sendFailureCont, hn]
  · intro e2 hn hrec
    simp [sendFailureCont, hn, hrec]
  · intro rs hn hrec
    simp [sendFailureCont, hn, hrec, countReconnect]

theorem send_failure_marks_stream_witness :
    conn_send_command baseConn failSendEnv .noop = sendFailureCont baseConn failSendEnv netErr
    ∧ conn_send_literal baseConn failSendEnv [1, 2] = sendFailureCont baseConn failSendEnv netErr
    ∧ conn_send_raw baseConn failSendEnv "DONE" = sendFailureCont baseConn failSendEnv netErr
    ∧ sendFailureCont baseConn failSendEnv netErr
        = (.error reconnFailErr, { baseConn with stream := .error netErr },
           [.reconnectAttempt]) := by
  have h := send_failure_marks_stream_and_reconnects baseConn failSendEnv .noop [1, 2] "DONE"
    freshStream netErr rfl rfl
  exact ⟨h.1, h.2.1, h.2.2.1, h.2.2.2.2.1 reconnFailErr rfl rfl⟩

theorem sendFailureCont_clears (st : ConnState) (env : SendEnv) (e : MError) :
    selectionCleared (sendFailureCont st env e).2.1 := by
  unfold sendFailureCont
  cases hn : e.network with
  | true =>
    cases hrec : env.reconnect with
    | ok rs =>
      intro s' hs'
      have h := Except.ok.inj hs'
      rw [← h]
    | error e2 =>
      intro s' hs'
      exact Except.noConfusion hs'
  | false =>
    intro s' hs'
    exact Except.noConfusion hs'

theorem conn_send_command_clears (st : ConnState) (env : SendEnv) (c : ImapCmd)
    (hP : selectionCleared st) : selectionCleared (conn_send_command st env c).2.1 := by
  unfold conn_send_command
  cases hstream : st.stream with
  | error e => exact sendFailureCont_clears st env e
  | ok s =>
    cases hw : env.writeErr with
    | some e => exact sendFailureCont_clears st env e
    | none =>
      intro s' hs'
      have h := Except.ok.inj hs'
      rw [← h]
      exact hP s hstream

theorem conn_read_response_clears (st : ConnState) (env : ReadEnv) (req : RequiredResponses)
    (hP : selectionCleared st) : selectionCleared (conn_read_response st env req).2.1 := by
  unfold conn_read_response
  cases hstream : st.stream with
  | error e =>
    intro s' hs'
    exact hP s' (hstream ▸ hs')
  | ok s =>
    cases hr : env.readErr with
    | some e =>
      intro s' hs'
      exact hP s' hs'
    | none =>
      cases hresp : env.resp with
      | bye =>
        intro s' hs'
        exact Except.noConfusion hs'
      | no =>
        cases hreq : req.no_required with
        | true =>
          intro s' hs'
          have h := Except.ok.inj hs'
          rw [← h]
          exact hP s hstream
        | false =>
          intro s' hs'
          have h := Except.ok.inj hs'
          rw [← h]
          exact hP s hstream
      | bad =>
        intro s' hs'
        have h := Except.ok.inj hs'
        rw [← h]
        exact hP s hstream
      | ok =>
        intro s' hs'
        have h := Except.ok.inj hs'
        rw [← h]
        exact hP s hstream
      | preauth =>
        intro s' hs'
        have h := Except.ok.inj hs'
        rw [← h]
        exact hP s hstream

/-- The round trip of `unselect` cannot re-install a mailbox selection:
every stream-OK outcome of send (including a successful reconnection, whose
fresh stream is unselected) and of read keeps `current_mailbox = None`. -/
theorem unselect_round_clears (st0 : ConnState) (env : UnselectEnv) (c : ImapCmd)
    (req : RequiredResponses) (hP : selectionCleared st0) :
    selectionCleared (unselect_round st0 env c req).2.1 := by
  unfold unselect_round
  dsimp only
  have h1 := conn_send_command_clears st0 env.send c hP
  cases hr1 : (conn_send_command st0 env.send c).1 with
  | error e => exact h1
  | ok _ =>
    have h2 := conn_read_response_clears (conn_send_command st0 env.send c).2.1 env.read req h1
    cases hr2 : (conn_read_response (conn_send_command st0 env.send c).2.1 env.read req).1 with
    | error e => exact h2
    | ok _ => exact h2

/-- Claim C10: on a connection whose stream is OK with a Select or Examine
current mailbox, `unselect()` clears the selection slot by `take()` before any
command is sent, and — whether the UNSELECT (or fallback SELECT) round trip
succeeds or fails, and even when a failed send triggers a successful
reconnection — the returned connection records no selected mailbox; the prior
selection is never restored. -/
theorem unselect_clears_selection (st : ConnState) (env : UnselectEnv) (s : ImapStream)
    (h : Nat) (hs : st.stream = .ok s)
    (hcur : s.current_mailbox = .select h ∨ s.current_mailbox = .examine h) :
    selectionCleared (unselect st env).2.1 := by
  have hst0 : selectionCleared
      ({ st with stream := .ok { s with current_mailbox := .none } } : ConnState) := by
    intro s' hs'
    have hinj := Except.ok.inj hs'
    rw [← hinj]
  unfold unselect
  rw [hs]
  dsimp only
  rcases hcur with hcur | hcur <;> rw [hcur] <;>
  · show selectionCleared
      ((if st.store.capabilities.contains "UNSELECT" then
          unselect_round { st with stream := .ok { s with current_mailbox := .none } } env
            .unselectCmd { no_required := false }
        else
          unselect_round { st with stream := .ok { s with current_mailbox := .none } } env
            (.selectCmd (freshName (st.store.mailboxes.map (fun p => p.2.imap_path))
              ((st.store.mailboxes.map (fun p => p.2.imap_path)).length + 1) "blurdybloop"))
            { no_required := true }).2.1)
    cases hcap : st.store.capabilities.contains "UNSELECT" with
    | true => exact unselect_round_clears _ env _ _ hst0
    | false => exact unselect_round_clears _ env _ _ hst0

theorem unselect_clears_selection_witness :
    selectionCleared (unselect selectedConn { send := okSendEnv, read := okReadEnv }).2.1 :=
  unselect_clears_selection selectedConn { send := okSendEnv, read := okReadEnv }
    { freshStream with current_mailbox := .select 7 } 7 rfl (Or.inl rfl)

/-- Claim C5 (counterexample): untagged chatter arriving every six minutes
resets the 10-minute read deadline, so after twelve minutes with no DONE sent
(the last DONE being the IDLE entry at time 0) no heartbeat has fired —
against the claim that the heartbeat fires exactly when ten minutes elapse
since the previous DONE, independently of arriving untagged responses. -/
theorem idle_heartbeat_not_since_previous_done :
    (idleRun [1] [.lineStep 360 true, .lineStep 360 true]).heartbeats = []
    ∧ (idleRun [1] [.lineStep 360 true, .lineStep 360 true]).now = 720
    ∧ (idleRun [1] [.lineStep 360 true, .lineStep 360 true]).lastDone = 0
    ∧ (idleRun [1] [.lineStep 360 true, .lineStep 360 true]).dones = [] := by
  decide

theorem idleStep_line_fields (mbs : List Nat) (st : IdleState) (d : Nat) (chat : Bool) :
    (idleStep mbs st (.lineStep d chat)).heartbeats = st.heartbeats
    ∧ (idleStep mbs st (.lineStep d chat)).now = st.now + d := by
  unfold idleStep
  by_cases hp : 300 ≤ st.now + d - st.watch <;> cases chat <;> simp [hp]

theorem idle_heartbeats_general (mbs : List Nat) (evs : List IdleStep) (st : IdleState) :
    (evs.foldl (idleStep mbs) st).heartbeats
      = st.heartbeats ++ silentHeartbeatTimes st.now evs := by
  induction evs generalizing st with
  | nil => simp [silentHeartbeatTimes]
  | cons ev r ih =>
    cases ev with
    | timeoutStep =>
      rw [List.foldl_cons, ih]
      simp [idleStep, silentHeartbeatTimes]
    | lineStep d chat =>
      rw [List.foldl_cons, ih, (idleStep_line_fields mbs st d chat).1,
        (idleStep_line_fields mbs st d chat).2]
      simp [silentHeartbeatTimes]
    | dropStep =>
      rw [List.foldl_cons, ih]
      simp [idleStep, silentHeartbeatTimes]

/-- Claim C5 (amended): in the IDLE loop the heartbeat (send DONE, drain,
re-enter IDLE, refresh the main connection) fires exactly when ten minutes
pass with no line arriving on the idle connection — the deadline restarts at
every received line, because `timeout(Some(10 min), as_stream())` wraps each
read.  Over any run whose line arrivals respect the deadline, the heartbeat
times are exactly the ends of the 10-minute silent gaps. -/
theorem idle_heartbeat_fires_on_read_silence (mbs : List Nat) (evs : List IdleStep)
    (hwf : ∀ d c, IdleStep.lineStep d c ∈ evs → d < 600) :
    (idleRun mbs evs).heartbeats = silentHeartbeatTimes 0 evs := by
  have h := idle_heartbeats_general mbs evs idleInit
  simpa [idleRun, idleInit] using h

theorem idle_heartbeat_fires_on_read_silence_witness :
    (idleRun [1] [IdleStep.timeoutStep, IdleStep.lineStep 300 true, IdleStep.timeoutStep]).heartbeats
      = silentHeartbeatTimes 0 [IdleStep.timeoutStep, IdleStep.lineStep 300 true,
          IdleStep.timeoutStep] :=
  idle_heartbeat_fires_on_read_silence [1]
    [IdleStep.timeoutStep, IdleStep.lineStep 300 true, IdleStep.timeoutStep]
    (by intro d c hd; simp at hd; omega)

/-- Claim C6 (code evaluation): the five-minute peer poll of the IDLE loop
iterates over the whole cloned mailboxes map (watch.rs lines 156-159) with no
skip of the idle target, unlike the startup loop (lines 117-122); with
mailboxes `[1, 2]` where `1` is the idle target (INBOX), the first poll
examines both — the idle target included. -/
theorem idle_poll_includes_idle_target :
    (idleRun [1, 2] [.lineStep 301 true]).polls = [(301, [1, 2])]
    ∧ (1 : Nat) ∈ ((idleRun [1, 2] [.lineStep 301 true]).polls.headD (0, [])).2 := by
  decide

end Meli
